import Mathlib

/-!
Shallow embedding of `src/main.py` (IA Jurídica Trabalhista – API), a single-file
request-handling service: bearer-token authorization, an in-memory case/document
store, and canned analysis / strategy / normative-search responses.

Modelling conventions:
* Python `str` is modelled by Lean `String`; Python string operations are
  character-based, so the helpers below work on `String.data : List Char`.
* Python `dict` (insertion-ordered, assignment replaces in place) is modelled by
  an association list with `dictGet` / `dictInsert`; `len` is the list length.
* A handler is a function `... → St → Except Err α × St`: the second component
  is the store after the call, equal to the input store whenever the handler
  raises (Python raises `HTTPException` before any mutation on every error path).
* The spec is transport-agnostic and renders the source's Portuguese identifiers
  in English (`caso_n` as `case_n`, `peticao_inicial` as `initial_petition`, …);
  the embedding keeps the source's literal strings.
-/

/-- Error taxonomy of the service, as surfaced by `HTTPException` in the source
(401 Unauthenticated, 403 Forbidden, 400 InvalidInput, 404 NotFound).
Pydantic validation failure of a `DocumentInput` built inside `add_documents`
is modelled as `invalidInput`, the spec's name for schema violations. -/
inductive Err where
  | unauthenticated
  | forbidden
  | invalidInput
  | notFound
deriving DecidableEq, Repr

instance {ε α : Type} [DecidableEq ε] [DecidableEq α] : DecidableEq (Except ε α)
  | .error a, .error b => if h : a = b then .isTrue (by rw [h]) else .isFalse (by simp [h])
  | .error _, .ok _ => .isFalse (by simp)
  | .ok _, .error _ => .isFalse (by simp)
  | .ok a, .ok b => if h : a = b then .isTrue (by rw [h]) else .isFalse (by simp [h])

/-- HTTP status code attached to each error (`HTTPException(status_code=...)`). -/
def errStatus : Err → Nat
  | .unauthenticated => 401
  | .forbidden => 403
  | .invalidInput => 400
  | .notFound => 404

/-- Model of `class Case(BaseModel)`: `matter` defaults to the labor-law label. -/
structure Case where
  id : String
  title : String
  matter : Option String := some "Direito do Trabalho"
  notes : Option String := none
deriving DecidableEq, Repr

/-- A validated `DocumentInput` (after the pydantic pattern checks passed);
`encoding` holds the given value or the default `"plain"`. -/
structure DocumentInput where
  type : String
  filename : Option String := none
  content : String
  encoding : String := "plain"
deriving DecidableEq, Repr

/-- A raw document dict as found in the request payload, before validation.
`none` in `encoding` models the key being absent (the pydantic default applies). -/
structure RawDocument where
  type : String
  filename : Option String := none
  content : String
  encoding : Option String := none
deriving DecidableEq, Repr

/-- Model of `class AnalysisRequest(BaseModel)` with its pydantic defaults. -/
structure AnalysisRequest where
  format : String := "markdown"
  includeCitations : Bool := true
  sections : List String := ["resumo", "pedidos_decisoes", "fundamentos", "analise_critica", "recomendacoes"]
deriving DecidableEq, Repr

/-- Model of `class StrategyRequest(BaseModel)`. -/
structure StrategyRequest where
  goal : Option String := none
  deadline : Option String := none
  constraints : Option String := none
deriving DecidableEq, Repr

/-- Model of `class NormaPesquisaRequest(BaseModel)`; `limit` is an unconstrained int
(`Optional[int] = 10`), so negative values pass schema validation. -/
structure NormaPesquisaRequest where
  query : String
  sources : List String := ["CLT", "CF", "SÚMULA_TST", "OJ_TST"]
  limit : Option Int := some 10
deriving DecidableEq, Repr

/-- Model of `class Citation(BaseModel)`. -/
structure Citation where
  source : String
  identifier : String
  excerpt : Option String := none
  url : Option String := none
deriving DecidableEq, Repr

/-- Model of `class AnalysisResponse(BaseModel)`. -/
structure AnalysisResponse where
  caseId : String
  format : String
  output : String
  citations : Option (List Citation) := none
deriving DecidableEq, Repr

/-- Model of `class StrategyResponse(BaseModel)`. -/
structure StrategyResponse where
  caseId : String
  roadmap : String
  risks : List String := []
  chances : Option String := none
deriving DecidableEq, Repr

/-- Model of `class SearchResponse(BaseModel)`. -/
structure SearchResponse where
  items : List Citation := []
deriving DecidableEq, Repr

/-- The body of `POST /cases` is an untyped `dict`; the handler reads the keys
`title` and `notes`. `matter` is carried here to express that the handler
ignores it (the source never reads it). `none` models an absent key. -/
structure CreatePayload where
  title : Option String := none
  notes : Option String := none
  matter : Option String := none
deriving DecidableEq, Repr

/-- The body of `POST /cases/:caseId/documents`: `payload.get("documents", [])`. -/
structure AttachPayload where
  documents : Option (List RawDocument) := none
deriving DecidableEq, Repr

/-! ### Python dict as an insertion-ordered association list -/

/-- Python `m.get(k)` / `k in m`: first (and, as built here, only) binding wins. -/
def dictGet {α : Type} : List (String × α) → String → Option α
  | [], _ => none
  | (k₁, v) :: rest, k => if k₁ = k then some v else dictGet rest k

/-- Python `m[k] = v`: replace in place when the key exists, else append
(insertion order preserved, as for a Python dict). -/
def dictInsert {α : Type} : List (String × α) → String → α → List (String × α)
  | [], k, v => [(k, v)]
  | (k₁, v₁) :: rest, k, v =>
    if k₁ = k then (k₁, v) :: rest else (k₁, v₁) :: dictInsert rest k v

/-! ### Python string helpers (character-level, matching Python semantics) -/

/-- Python `s.startswith(p)`. -/
def pyStartsWith (s p : String) : Bool :=
  decide (s.data.take p.data.length = p.data)

/-- Python `s[n:]` (drop the first `n` characters). -/
def pyDropChars (s : String) (n : Nat) : String :=
  String.mk (s.data.drop n)

/-- Python `s.strip()` with no argument: remove leading and trailing
whitespace (ASCII whitespace suffices for the tokens involved here). -/
def pyStrip (s : String) : String :=
  String.mk (((s.data.dropWhile Char.isWhitespace).reverse.dropWhile Char.isWhitespace).reverse)

/-- Python `lst[:stop]` slice semantics: `None` keeps the whole list, a
nonnegative `stop` keeps the first `stop` elements, a negative `stop` drops
`-stop` elements from the end (clamped at the empty list). -/
def pySliceTo {α : Type} (l : List α) : Option Int → List α
  | none => l
  | some n => if 0 ≤ n then l.take n.toNat else l.take (l.length - (-n).toNat)

/-! ### The store and the authenticator -/

/-- The process-wide mutable state: `DB_CASES` and `DB_DOCS`. -/
structure St where
  cases : List (String × Case)
  docs : List (String × List DocumentInput)
deriving DecidableEq, Repr

/-- Module initialisation: `DB_CASES: Dict[str, Case] = {}` and
`DB_DOCS: Dict[str, List[DocumentInput]] = {}`. -/
def emptySt : St := { cases := [], docs := [] }

/-- Model of `check_auth(auth)`. Here `apiKey` is `API_KEY = os.getenv("API_BEARER", "changeme")`,
read once at startup and passed here as a parameter. Returns `some e` when the
source raises `HTTPException` and `none` when the check passes. Python's
`not auth` is true for a missing header and for the empty string, hence the
separate `a = ""` branch; given that `a` starts with `"Bearer "`, the first
space sits at index 6, so `auth.split(" ", 1)[1]` is exactly `a[7:]`. -/
def check_auth (apiKey : String) (auth : Option String) : Option Err :=
  match auth with
  | none => some .unauthenticated
  | some a =>
    if a = "" then some .unauthenticated
    else if pyStartsWith a "Bearer " then
      if pyStrip (pyDropChars a 7) = apiKey then none else some .forbidden
    else some .unauthenticated

/-! ### Document validation (the pydantic patterns of `DocumentInput`) -/

/-- Alternatives of the anchored pattern
`^(peticao_inicial|contestacao|sentenca|ed|ro|acordao|rr|airr|ai|edtst|rext|ap|outro)$`
on `DocumentInput.type`. The spec writes them in English, in order:
initial_petition, defense, judgment, clarification_motion, ordinary_appeal,
panel_decision, special_appeal, special_appeal_interlocutory,
interlocutory_appeal, clarification_motion_superior, extraordinary_appeal,
appeal, other. -/
def document_type_values : List String :=
  ["peticao_inicial", "contestacao", "sentenca", "ed", "ro", "acordao", "rr",
   "airr", "ai", "edtst", "rext", "ap", "outro"]

/-- Alternatives of the anchored pattern `^(plain|base64)$` on
`DocumentInput.encoding`. -/
def encoding_values : List String := ["plain", "base64"]

/-- An anchored alternation of literal strings matches exactly the listed values. -/
def matchesAlternation (vals : List String) (s : String) : Bool := vals.contains s

/-- Model of `DocumentInput(**d)`: pydantic validates `type` against the type pattern and
`encoding` (defaulting to `"plain"` when the key is absent) against the encoding
pattern; any violation raises, modelled as `invalidInput`. -/
def validate_document (d : RawDocument) : Except Err DocumentInput :=
  if matchesAlternation document_type_values d.type then
    if matchesAlternation encoding_values (d.encoding.getD "plain") then
      .ok { type := d.type, filename := d.filename, content := d.content,
            encoding := d.encoding.getD "plain" }
    else .error .invalidInput
  else .error .invalidInput

/-- Model of `[DocumentInput(**d) for d in payload.get("documents", [])]`: validates left
to right; the first failure aborts the whole comprehension, so nothing is
produced unless every document validates. -/
def validate_documents : List RawDocument → Except Err (List DocumentInput)
  | [] => .ok []
  | d :: rest =>
    match validate_document d with
    | .error e => .error e
    | .ok v =>
      match validate_documents rest with
      | .error e => .error e
      | .ok vs => .ok (v :: vs)

/-! ### Request handlers -/

/-- Handler of `POST /cases` (`create_case`). -/
def create_case (apiKey : String) (payload : CreatePayload)
    (authorization : Option String) (s : St) : Except Err Case × St :=
  match check_auth apiKey authorization with
  | some e => (.error e, s)
  | none =>
    match payload.title with
    | none => (.error .invalidInput, s)
    | some t =>
      if t = "" then (.error .invalidInput, s)
      else
        let case_id := "caso_" ++ Nat.repr (s.cases.length + 1)
        let c : Case := { id := case_id, title := t, notes := payload.notes }
        (.ok c, { cases := dictInsert s.cases case_id c,
                  docs := dictInsert s.docs case_id [] })

/-- The message `f"{len(docs)} documento(s) anexado(s) ao {caseId}"`. -/
def attachMessage (n : Nat) (caseId : String) : String :=
  Nat.repr n ++ " documento(s) anexado(s) ao " ++ caseId

/-- Handler of `POST /cases/:caseId/documents` (`add_documents`). The source reads
`DB_DOCS[caseId]`; whenever `caseId` is in `DB_CASES` it is also in `DB_DOCS`
(both are populated together by `create_case`; `reach_inv` below proves this
invariant of every reachable store), so the `getD []` default is never taken
on a reachable store. -/
def add_documents (apiKey : String) (caseId : String) (payload : AttachPayload)
    (authorization : Option String) (s : St) : Except Err String × St :=
  match check_auth apiKey authorization with
  | some e => (.error e, s)
  | none =>
    if (dictGet s.cases caseId).isSome then
      match validate_documents (payload.documents.getD []) with
      | .error e => (.error e, s)
      | .ok docs =>
        let old := (dictGet s.docs caseId).getD []
        (.ok (attachMessage docs.length caseId),
         { s with docs := dictInsert s.docs caseId (old ++ docs) })
    else (.error .notFound, s)

/-- Handler of `GET /cases/:caseId` (`get_case`). -/
def get_case (apiKey : String) (caseId : String)
    (authorization : Option String) (s : St) : Except Err Case × St :=
  match check_auth apiKey authorization with
  | some e => (.error e, s)
  | none =>
    match dictGet s.cases caseId with
    | none => (.error .notFound, s)
    | some c => (.ok c, s)

/-- The constant markdown body built inside `analyze_case`. -/
def analysis_markdown : String :=
  "## 1. Resumo Executivo\n" ++
  "Sentença parcialmente procedente. Horas extras deferidas; insalubridade indeferida.\n\n" ++
  "## 2. Pedidos x Decisões\n" ++
  "| Pedido | Resultado | Fundamento |\n|---|---|---|\n" ++
  "| Horas extras | Parcial | Art. 7º, XVI CF; Art. 59 CLT; Súmula 85/TST |\n" ++
  "| Insalubridade | Improcedente | Art. 195 CLT |\n\n" ++
  "## 3. Fundamentos\n- **Art. 59, CLT**...\n- **Súmula 85/TST**...\n\n" ++
  "## 4. Análise Crítica\nPonto fraco: perícia não requerida oportunamente.\n\n" ++
  "## 5. Recomendações\nRO com tese de cerceamento (art. 5º, LV, CF) + prequestionar art. 818 CLT."

/-- The constant citation list built inside `analyze_case`. -/
def analysis_citations : List Citation :=
  [{ source := "CLT", identifier := "Art. 59",
     url := some "https://www.planalto.gov.br/ccivil_03/decreto-lei/del5452.htm#art59" },
   { source := "SÚMULA_TST", identifier := "Súmula 85",
     url := some "https://www.tst.jus.br/jurisprudencia/sumulas" }]

/-- Handler of `POST /cases/:caseId/analyze` (`analyze_case`). -/
def analyze_case (apiKey : String) (caseId : String) (req : AnalysisRequest)
    (authorization : Option String) (s : St) : Except Err AnalysisResponse × St :=
  match check_auth apiKey authorization with
  | some e => (.error e, s)
  | none =>
    if (dictGet s.cases caseId).isSome then
      (.ok { caseId := caseId, format := req.format, output := analysis_markdown,
             citations := some analysis_citations }, s)
    else (.error .notFound, s)

/-- The constant roadmap built inside `strategy_case`. -/
def strategy_roadmap : String :=
  "1) RO (art. 5º, LV, CF)\n" ++
  "2) Prequestionar art. 818 CLT e 373 CPC\n" ++
  "3) RR c/ transcendência se mantida negativa de perícia"

/-- Handler of `POST /cases/:caseId/strategy` (`strategy_case`). -/
def strategy_case (apiKey : String) (caseId : String) (req : StrategyRequest)
    (authorization : Option String) (s : St) : Except Err StrategyResponse × St :=
  match check_auth apiKey authorization with
  | some e => (.error e, s)
  | none =>
    if (dictGet s.cases caseId).isSome then
      (.ok { caseId := caseId, roadmap := strategy_roadmap,
             risks := ["preclusão da perícia"], chances := some "média-alta" }, s)
    else (.error .notFound, s)

/-- The fixed two-element result list built inside `search_normas` before the
`[: req.limit]` slice is applied (the generator's ranking order). -/
def norma_results : List Citation :=
  [{ source := "CLT", identifier := "Art. 461", excerpt := some "Sendo idêntica a função...",
     url := some "https://www.planalto.gov.br/ccivil_03/decreto-lei/del5452.htm#art461" },
   { source := "SÚMULA_TST", identifier := "Súmula 6", excerpt := some "Equiparação salarial...",
     url := some "https://www.tst.jus.br/jurisprudencia/sumulas" }]

/-- Handler of `POST /research/normas` (`search_normas`): slices the fixed result list with
Python semantics `items[: req.limit]`. -/
def search_normas (apiKey : String) (req : NormaPesquisaRequest)
    (authorization : Option String) (s : St) : Except Err SearchResponse × St :=
  match check_auth apiKey authorization with
  | some e => (.error e, s)
  | none => (.ok { items := pySliceTo norma_results req.limit }, s)

/-! ### All operations under one roof -/

/-- One request to any of the six handlers. -/
inductive Op where
  | create (payload : CreatePayload)
  | attach (caseId : String) (payload : AttachPayload)
  | get (caseId : String)
  | analyze (caseId : String) (req : AnalysisRequest)
  | strategy (caseId : String) (req : StrategyRequest)
  | search (req : NormaPesquisaRequest)
deriving DecidableEq, Repr

/-- A handler response, with one constructor per response schema. -/
inductive Out where
  | case (c : Case)
  | msg (m : String)
  | analysis (r : AnalysisResponse)
  | strategy (r : StrategyResponse)
  | search (r : SearchResponse)
deriving DecidableEq, Repr

/-- Dispatch a request to its handler. -/
def runOp (apiKey : String) (op : Op) (authorization : Option String) (s : St) :
    Except Err Out × St :=
  match op with
  | .create payload =>
    let r := create_case apiKey payload authorization s
    (r.1.map .case, r.2)
  | .attach caseId payload =>
    let r := add_documents apiKey caseId payload authorization s
    (r.1.map .msg, r.2)
  | .get caseId =>
    let r := get_case apiKey caseId authorization s
    (r.1.map .case, r.2)
  | .analyze caseId req =>
    let r := analyze_case apiKey caseId req authorization s
    (r.1.map .analysis, r.2)
  | .strategy caseId req =>
    let r := strategy_case apiKey caseId req authorization s
    (r.1.map .strategy, r.2)
  | .search req =>
    let r := search_normas apiKey req authorization s
    (r.1.map .search, r.2)

/-- The case identifier an operation is scoped to, when any. -/
def Op.caseScope : Op → Option String
  | .create _ => none
  | .attach caseId _ => some caseId
  | .get caseId => some caseId
  | .analyze caseId _ => some caseId
  | .strategy caseId _ => some caseId
  | .search _ => none

/-- The stores reachable from the empty store by any sequence of requests
(with any headers and bodies) against a fixed configured secret. -/
inductive Reach (apiKey : String) : St → Prop
  | empty : Reach apiKey emptySt
  | step {s : St} (op : Op) (auth : Option String) :
      Reach apiKey s → Reach apiKey (runOp apiKey op auth s).2

/-! ### Dictionary lemmas -/

theorem dictGet_insert {α : Type} (m : List (String × α)) (k k' : String) (v : α) :
    dictGet (dictInsert m k v) k' = if k = k' then some v else dictGet m k' := by
  induction m with
  | nil => simp [dictGet, dictInsert]
  | cons p rest ih =>
    obtain ⟨k₁, v₁⟩ := p
    by_cases h1 : k₁ = k
    · subst h1
      simp only [dictInsert, if_pos rfl, dictGet]
      by_cases h2 : k₁ = k' <;> simp [h2]
    · simp only [dictInsert, if_neg h1, dictGet]
      by_cases h2 : k₁ = k'
      · subst h2
        have : ¬ k = k₁ := fun e => h1 e.symm
        simp [this]
      · simp [h2, ih]

theorem dictGet_insert_self {α : Type} (m : List (String × α)) (k : String) (v : α) :
    dictGet (dictInsert m k v) k = some v := by
  simp [dictGet_insert]

theorem dictGet_insert_ne {α : Type} (m : List (String × α)) (k k' : String) (v : α)
    (h : k ≠ k') : dictGet (dictInsert m k v) k' = dictGet m k' := by
  simp [dictGet_insert, h]

theorem dictGet_eq_none_iff {α : Type} (m : List (String × α)) (k : String) :
    dictGet m k = none ↔ k ∉ m.map Prod.fst := by
  induction m with
  | nil => simp [dictGet]
  | cons p rest ih =>
    obtain ⟨k₁, v₁⟩ := p
    by_cases h1 : k₁ = k
    · subst h1; simp [dictGet]
    · rw [List.map_cons]
      constructor
      · intro hr hmem
        rcases List.mem_cons.mp hmem with he | hmem2
        · exact h1 he.symm
        · simp only [dictGet, if_neg h1] at hr
          exact (ih.mp hr) hmem2
      · intro hmem
        simp only [dictGet, if_neg h1]
        exact ih.mpr (fun hm => hmem (List.mem_cons.mpr (Or.inr hm)))

theorem dictInsert_of_get_none {α : Type} (m : List (String × α)) (k : String) (v : α)
    (h : dictGet m k = none) : dictInsert m k v = m ++ [(k, v)] := by
  induction m with
  | nil => simp [dictInsert]
  | cons p rest ih =>
    obtain ⟨k₁, v₁⟩ := p
    simp only [dictGet] at h
    by_cases h1 : k₁ = k
    · simp [h1] at h
    · simp only [dictInsert, if_neg h1, List.cons_append, List.cons.injEq, true_and]
      exact ih (by simpa [h1] using h)

/-! ### Injectivity of the decimal rendering used by `f"caso_{...}"` -/

/-- The decimal digit characters of `n`, most significant first; `natChars n`
is what `Nat.toDigitsCore 10` produces with sufficient fuel. -/
def natChars (n : Nat) : List Char :=
  if h : n / 10 = 0 then [Nat.digitChar (n % 10)]
  else natChars (n / 10) ++ [Nat.digitChar (n % 10)]
termination_by n
decreasing_by
  have hn : n ≠ 0 := fun e => h (by simp [e])
  exact Nat.div_lt_self (Nat.pos_of_ne_zero hn) (by decide)

theorem toDigitsCore_eq_natChars (f : Nat) : ∀ (n : Nat) (l : List Char), n < f →
    Nat.toDigitsCore 10 f n l = natChars n ++ l := by
  induction f with
  | zero => intro n l h; exact absurd h (Nat.not_lt_zero n)
  | succ f ih =>
    intro n l h
    rw [natChars]
    by_cases h10 : n / 10 = 0
    · simp [Nat.toDigitsCore, h10]
    · have hn : n ≠ 0 := fun e => h10 (by simp [e])
      have hlt : n / 10 < f := by
        have h1 : n / 10 < n := Nat.div_lt_self (Nat.pos_of_ne_zero hn) (by decide)
        omega
      simp [Nat.toDigitsCore, h10, ih (n / 10) (Nat.digitChar (n % 10) :: l) hlt,
        List.append_assoc]

/-- Inverse of `Nat.digitChar` on decimal digits. -/
def charDigit (c : Char) : Nat := c.toNat - 48

theorem charDigit_digitChar : ∀ d, d < 10 → charDigit (Nat.digitChar d) = d := by decide

/-- Fold the decimal digit characters back into a number. -/
def decodeDigits (l : List Char) (acc : Nat) : Nat :=
  l.foldl (fun a c => a * 10 + charDigit c) acc

theorem decodeDigits_natChars (n : Nat) : ∀ acc : Nat,
    decodeDigits (natChars n) acc = acc * 10 ^ (natChars n).length + n := by
  induction n using Nat.strong_induction_on with
  | _ n ih =>
    intro acc
    rw [natChars]
    by_cases h10 : n / 10 = 0
    · have hlt : n < 10 := (Nat.div_eq_zero_iff (by decide)).mp h10
      have hmod : n % 10 = n := Nat.mod_eq_of_lt hlt
      simp [h10, decodeDigits, hmod, charDigit_digitChar n hlt]
    · have hn : n ≠ 0 := fun e => h10 (by simp [e])
      have hlt : n / 10 < n := Nat.div_lt_self (Nat.pos_of_ne_zero hn) (by decide)
      have hih := ih (n / 10) hlt acc
      simp only [dif_neg h10, decodeDigits, List.foldl_append, List.foldl_cons, List.foldl_nil,
        List.length_append, List.length_cons, List.length_nil]
      have hmod : charDigit (Nat.digitChar (n % 10)) = n % 10 :=
        charDigit_digitChar (n % 10) (Nat.mod_lt n (by omega))
      rw [hmod]
      have hfold : (natChars (n / 10)).foldl (fun a c => a * 10 + charDigit c) acc
          = acc * 10 ^ (natChars (n / 10)).length + n / 10 := hih
      rw [hfold]
      have hkey : (acc * 10 ^ (natChars (n / 10)).length + n / 10) * 10 + n % 10
          = acc * 10 ^ ((natChars (n / 10)).length + 1) + (10 * (n / 10) + n % 10) := by
        ring
      rw [hkey, Nat.div_add_mod]

theorem natChars_inj {m n : Nat} (h : natChars m = natChars n) : m = n := by
  have hm := decodeDigits_natChars m 0
  have hn := decodeDigits_natChars n 0
  rw [h] at hm
  simp only [Nat.zero_mul, Nat.zero_add] at hm hn
  omega

theorem repr_injective {m n : Nat} (h : Nat.repr m = Nat.repr n) : m = n := by
  have hm : Nat.repr m = (natChars m).asString := by
    show (Nat.toDigitsCore 10 (m+1) m []).asString = _
    rw [toDigitsCore_eq_natChars (m+1) m [] (Nat.lt_succ_self m), List.append_nil]
  have hn : Nat.repr n = (natChars n).asString := by
    show (Nat.toDigitsCore 10 (n+1) n []).asString = _
    rw [toDigitsCore_eq_natChars (n+1) n [] (Nat.lt_succ_self n), List.append_nil]
  rw [hm, hn] at h
  have : natChars m = natChars n := congrArg String.data h
  exact natChars_inj this

/-- Distinct counters yield distinct `caso_…` identifiers. -/
theorem caseId_inj {m n : Nat} (h : "caso_" ++ Nat.repr m = "caso_" ++ Nat.repr n) :
    m = n := by
  apply repr_injective
  have hd := congrArg String.data h
  rw [String.data_append, String.data_append] at hd
  exact String.ext (by simpa using hd)

/-! ### The store invariant maintained by every request -/

/-- The identifiers handed out after `n` successful creations, in order. -/
def caseIds (n : Nat) : List String :=
  (List.range n).map (fun i => "caso_" ++ Nat.repr (i + 1))

/-- Invariant of every reachable store: the case keys are exactly
`caso_1 … caso_n` in creation order, and every case key also keys `DB_DOCS`. -/
def StInv (s : St) : Prop :=
  s.cases.map Prod.fst = caseIds s.cases.length ∧
  ∀ k, (dictGet s.cases k).isSome = true → (dictGet s.docs k).isSome = true

theorem freshId_not_mem (n : Nat) : ("caso_" ++ Nat.repr (n + 1)) ∉ caseIds n := by
  intro hmem
  simp only [caseIds, List.mem_map, List.mem_range] at hmem
  obtain ⟨i, hi, he⟩ := hmem
  have := caseId_inj he
  omega

theorem get_case_state (apiKey caseId : String) (auth : Option String) (s : St) :
    (get_case apiKey caseId auth s).2 = s := by
  unfold get_case
  cases check_auth apiKey auth with
  | some e => rfl
  | none =>
    cases dictGet s.cases caseId with
    | none => rfl
    | some c => rfl

theorem analyze_case_state (apiKey caseId : String) (req : AnalysisRequest)
    (auth : Option String) (s : St) : (analyze_case apiKey caseId req auth s).2 = s := by
  unfold analyze_case
  cases check_auth apiKey auth with
  | some e => rfl
  | none => by_cases h : (dictGet s.cases caseId).isSome <;> simp [h]

theorem strategy_case_state (apiKey caseId : String) (req : StrategyRequest)
    (auth : Option String) (s : St) : (strategy_case apiKey caseId req auth s).2 = s := by
  unfold strategy_case
  cases check_auth apiKey auth with
  | some e => rfl
  | none => by_cases h : (dictGet s.cases caseId).isSome <;> simp [h]

theorem search_normas_state (apiKey : String) (req : NormaPesquisaRequest)
    (auth : Option String) (s : St) : (search_normas apiKey req auth s).2 = s := by
  unfold search_normas
  cases check_auth apiKey auth with
  | some e => rfl
  | none => rfl

theorem create_case_state (apiKey : String) (payload : CreatePayload)
    (auth : Option String) (s : St) :
    (create_case apiKey payload auth s).2 = s ∨
    ∃ t : String, payload.title = some t ∧ t ≠ "" ∧ check_auth apiKey auth = none ∧
      (create_case apiKey payload auth s).2 =
        { cases := dictInsert s.cases ("caso_" ++ Nat.repr (s.cases.length + 1))
            { id := "caso_" ++ Nat.repr (s.cases.length + 1), title := t,
              notes := payload.notes },
          docs := dictInsert s.docs ("caso_" ++ Nat.repr (s.cases.length + 1)) [] } := by
  unfold create_case
  cases hca : check_auth apiKey auth with
  | some e => exact Or.inl rfl
  | none =>
    cases ht : payload.title with
    | none => exact Or.inl rfl
    | some t =>
      by_cases ht0 : t = ""
      · simp [ht0]
      · exact Or.inr ⟨t, rfl, ht0, rfl, by simp [ht0]⟩

theorem add_documents_state (apiKey caseId : String) (payload : AttachPayload)
    (auth : Option String) (s : St) :
    (add_documents apiKey caseId payload auth s).2 = s ∨
    ∃ docs : List DocumentInput,
      (add_documents apiKey caseId payload auth s).2 =
        { s with docs := (dictInsert s.docs caseId (((dictGet s.docs caseId).getD []) ++ docs)) } := by
  unfold add_documents
  cases hca : check_auth apiKey auth with
  | some e => exact Or.inl rfl
  | none =>
    by_cases hc : (dictGet s.cases caseId).isSome
    · simp only [hc, if_pos]
      cases hv : validate_documents (payload.documents.getD []) with
      | error e => exact Or.inl rfl
      | ok docs => exact Or.inr ⟨docs, rfl⟩
    · simp [hc]

theorem stinv_insert_docs (s : St) (k : String) (v : List DocumentInput)
    (h : StInv s) : StInv { s with docs := dictInsert s.docs k v } := by
  obtain ⟨h1, h2⟩ := h
  refine ⟨h1, fun k' hk' => ?_⟩
  rw [dictGet_insert]
  by_cases he : k = k' <;> simp [he]
  exact h2 k' hk'

theorem stinv_create_step (s : St) (t : String) (notes : Option String)
    (h : StInv s) :
    StInv { cases := dictInsert s.cases ("caso_" ++ Nat.repr (s.cases.length + 1))
              { id := "caso_" ++ Nat.repr (s.cases.length + 1), title := t, notes := notes },
            docs := dictInsert s.docs ("caso_" ++ Nat.repr (s.cases.length + 1)) [] } := by
  obtain ⟨h1, h2⟩ := h
  set n := s.cases.length with hn
  set cid := "caso_" ++ Nat.repr (n + 1) with hcid
  have hnotmem : cid ∉ s.cases.map Prod.fst := by
    rw [h1]; exact freshId_not_mem n
  have hnone : dictGet s.cases cid = none := (dictGet_eq_none_iff _ _).mpr hnotmem
  have happ : dictInsert s.cases cid
      { id := cid, title := t, matter := some "Direito do Trabalho", notes := notes } =
      s.cases ++ [(cid, { id := cid, title := t, notes := notes })] :=
    dictInsert_of_get_none _ _ _ hnone
  constructor
  · show (dictInsert s.cases cid _).map Prod.fst = _
    rw [happ]
    have hlen : (s.cases ++ [(cid, { id := cid, title := t, notes := notes : Case })]).length
        = n + 1 := by simp [hn]
    rw [hlen, List.map_append, h1]
    show caseIds n ++ [cid] = caseIds (n + 1)
    rw [caseIds, caseIds, List.range_succ, List.map_append]
    rfl
  · intro k hk
    rw [dictGet_insert]
    by_cases he : cid = k <;> simp [he]
    rw [happ] at hk
    apply h2 k
    by_contra hnot
    have hkn : dictGet s.cases k = none := by
      cases hkk : dictGet s.cases k with
      | none => rfl
      | some c => rw [hkk] at hnot; simp at hnot
    have : k ∉ s.cases.map Prod.fst := (dictGet_eq_none_iff _ _).mp hkn
    have hmem : k ∈ (s.cases ++ [(cid, { id := cid, title := t, notes := notes : Case })]).map Prod.fst := by
      by_contra hno
      have : dictGet (s.cases ++ [(cid, { id := cid, title := t, notes := notes : Case })]) k = none :=
        (dictGet_eq_none_iff _ _).mpr hno
      rw [this] at hk; simp at hk
    rw [List.map_append] at hmem
    rcases List.mem_append.mp hmem with hm | hm
    · exact absurd hm this
    · simp at hm
      exact absurd hm.symm he

/-- Every reachable store satisfies the invariant: its case keys are exactly
`caso_1 … caso_n` in creation order, and `DB_DOCS` holds every case key. -/
theorem reach_inv {apiKey : String} {s : St} (h : Reach apiKey s) : StInv s := by
  induction h with
  | empty => exact ⟨rfl, fun k hk => by simp [emptySt, dictGet] at hk⟩
  | step op auth hr ih =>
    rename_i s'
    cases op with
    | create payload =>
      show StInv (create_case apiKey payload auth s').2
      rcases create_case_state apiKey payload auth s' with he | ⟨t, _, _, _, he⟩
      · rw [he]; exact ih
      · rw [he]; exact stinv_create_step s' t payload.notes ih
    | attach caseId payload =>
      show StInv (add_documents apiKey caseId payload auth s').2
      rcases add_documents_state apiKey caseId payload auth s' with he | ⟨docs, he⟩
      · rw [he]; exact ih
      · rw [he]; exact stinv_insert_docs s' caseId _ ih
    | get caseId =>
      show StInv (get_case apiKey caseId auth s').2
      rw [get_case_state]; exact ih
    | analyze caseId req =>
      show StInv (analyze_case apiKey caseId req auth s').2
      rw [analyze_case_state]; exact ih
    | strategy caseId req =>
      show StInv (strategy_case apiKey caseId req auth s').2
      rw [strategy_case_state]; exact ih
    | search req =>
      show StInv (search_normas apiKey req auth s').2
      rw [search_normas_state]; exact ih

/-! ### Authenticator lemmas -/

theorem check_auth_no_header (apiKey : String) :
    check_auth apiKey none = some .unauthenticated := rfl

theorem check_auth_bad_scheme (apiKey a : String)
    (h : pyStartsWith a "Bearer " = false) :
    check_auth apiKey (some a) = some .unauthenticated := by
  unfold check_auth
  by_cases he : a = "" <;> simp [he, h]

theorem check_auth_wrong_token (apiKey a : String)
    (h : pyStartsWith a "Bearer " = true) (hw : pyStrip (pyDropChars a 7) ≠ apiKey) :
    check_auth apiKey (some a) = some .forbidden := by
  have hne : a ≠ "" := by
    intro e
    subst e
    rw [show pyStartsWith "" "Bearer " = false from by decide] at h
    exact Bool.false_ne_true h
  unfold check_auth
  simp [hne, h, hw]

/-- Every handler raises the authenticator's error, with the store untouched,
whenever `check_auth` fails. -/
theorem runOp_auth_fail (apiKey : String) (op : Op) (auth : Option String) (s : St)
    (e : Err) (h : check_auth apiKey auth = some e) :
    runOp apiKey op auth s = (.error e, s) := by
  cases op <;>
    simp [runOp, create_case, add_documents, get_case, analyze_case, strategy_case,
      search_normas, h, Except.map]

/-! ### Validation error lemmas -/

theorem validate_document_error (d : RawDocument) (e : Err)
    (h : validate_document d = .error e) : e = .invalidInput := by
  unfold validate_document at h
  split at h
  · split at h
    · exact absurd h (by simp)
    · exact (Except.error.inj h).symm
  · exact (Except.error.inj h).symm

theorem validate_documents_error (l : List RawDocument) (e : Err)
    (h : validate_documents l = .error e) : e = .invalidInput := by
  induction l generalizing e with
  | nil => exact absurd h (by simp [validate_documents])
  | cons d rest ih =>
    unfold validate_documents at h
    cases hv : validate_document d with
    | error e1 =>
      rw [hv] at h
      have he : e1 = e := Except.error.inj h
      exact he ▸ validate_document_error d e1 hv
    | ok v =>
      rw [hv] at h
      cases hr : validate_documents rest with
      | error e2 =>
        rw [hr] at h
        have he : e2 = e := Except.error.inj h
        exact he ▸ ih e2 hr
      | ok vs => rw [hr] at h; exact absurd h (by simp)

/-! ### Claim theorems -/

/-- C2: for every operation and every store, a missing authorization header or
one that does not start with the `Bearer ` scheme fails with Unauthenticated
(401) and leaves the store unchanged (the authenticator runs before any store
access); a correct-scheme header whose extracted token differs from the
configured secret fails with Forbidden (403), a distinct error, again leaving
the store unchanged. -/
theorem C2_auth_gating (apiKey : String) (op : Op) (s : St) :
    (runOp apiKey op none s = (.error .unauthenticated, s)) ∧
    (∀ a : String, pyStartsWith a "Bearer " = false →
        runOp apiKey op (some a) s = (.error .unauthenticated, s)) ∧
    (∀ a : String, pyStartsWith a "Bearer " = true →
        pyStrip (pyDropChars a 7) ≠ apiKey →
        runOp apiKey op (some a) s = (.error .forbidden, s)) ∧
    Err.unauthenticated ≠ Err.forbidden ∧
    errStatus .unauthenticated = 401 ∧ errStatus .forbidden = 403 := by
  refine ⟨?_, ?_, ?_, by simp, rfl, rfl⟩
  · exact runOp_auth_fail apiKey op none s _ (check_auth_no_header apiKey)
  · intro a ha
    exact runOp_auth_fail apiKey op (some a) s _ (check_auth_bad_scheme apiKey a ha)
  · intro a ha hw
    exact runOp_auth_fail apiKey op (some a) s _ (check_auth_wrong_token apiKey a ha hw)

/-- Witness for C2 at concrete inputs. -/
theorem C2_auth_gating_witness :
    runOp "changeme" (Op.get "caso_1") none emptySt = (.error .unauthenticated, emptySt) ∧
    runOp "changeme" (Op.get "caso_1") (some "Token abc") emptySt
      = (.error .unauthenticated, emptySt) ∧
    runOp "changeme" (Op.get "caso_1") (some "Bearer wrong") emptySt
      = (.error .forbidden, emptySt) := by
  obtain ⟨h1, h2, h3, _⟩ := C2_auth_gating "changeme" (Op.get "caso_1") emptySt
  exact ⟨h1, h2 "Token abc" (by decide), h3 "Bearer wrong" (by decide) (by decide)⟩

/-- C4: with a valid credential, every case-scoped operation (attach documents,
get case, analyze, strategy) on a case identifier absent from the store fails
with NotFound and leaves the store unchanged. -/
theorem C4_missing_case_notFound (apiKey : String) (op : Op) (auth : Option String)
    (s : St) (cid : String)
    (hauth : check_auth apiKey auth = none)
    (hscope : op.caseScope = some cid)
    (habsent : dictGet s.cases cid = none) :
    runOp apiKey op auth s = (.error .notFound, s) := by
  cases op with
  | create payload => exact absurd hscope (by simp [Op.caseScope])
  | search req => exact absurd hscope (by simp [Op.caseScope])
  | attach caseId payload =>
    have he : caseId = cid := Option.some.inj hscope
    subst he
    simp [runOp, add_documents, hauth, habsent, Except.map]
  | get caseId =>
    have he : caseId = cid := Option.some.inj hscope
    subst he
    simp [runOp, get_case, hauth, habsent, Except.map]
  | analyze caseId req =>
    have he : caseId = cid := Option.some.inj hscope
    subst he
    simp [runOp, analyze_case, hauth, habsent, Except.map]
  | strategy caseId req =>
    have he : caseId = cid := Option.some.inj hscope
    subst he
    simp [runOp, strategy_case, hauth, habsent, Except.map]

/-- Witness for C4 at concrete inputs. -/
theorem C4_missing_case_notFound_witness :
    runOp "changeme" (Op.analyze "caso_77" {}) (some "Bearer changeme") emptySt
      = (.error .notFound, emptySt) :=
  C4_missing_case_notFound "changeme" (Op.analyze "caso_77" {}) (some "Bearer changeme")
    emptySt "caso_77" (by decide) rfl rfl

/-- C5: with a valid credential, `create_case` on a payload whose title is
missing or empty fails with InvalidInput (400) and the store (cases and
documents alike) is exactly as before the call. -/
theorem C5_create_empty_title (apiKey : String) (payload : CreatePayload)
    (auth : Option String) (s : St)
    (hauth : check_auth apiKey auth = none)
    (htitle : payload.title = none ∨ payload.title = some "") :
    create_case apiKey payload auth s = (.error .invalidInput, s) ∧
    errStatus .invalidInput = 400 := by
  refine ⟨?_, rfl⟩
  rcases htitle with h | h <;> simp [create_case, hauth, h]

/-- Witness for C5 at concrete inputs. -/
theorem C5_create_empty_title_witness :
    (create_case "changeme" {} (some "Bearer changeme") emptySt
        = (.error .invalidInput, emptySt) ∧ errStatus .invalidInput = 400) ∧
    (create_case "changeme" { title := some "" } (some "Bearer changeme") emptySt
        = (.error .invalidInput, emptySt) ∧ errStatus .invalidInput = 400) :=
  ⟨C5_create_empty_title "changeme" {} (some "Bearer changeme") emptySt (by decide)
      (Or.inl rfl),
   C5_create_empty_title "changeme" { title := some "" } (some "Bearer changeme") emptySt
      (by decide) (Or.inr rfl)⟩

theorem matchesAlternation_iff (vals : List String) (s : String) :
    matchesAlternation vals s = true ↔ s ∈ vals := by
  simp [matchesAlternation, List.contains, List.elem_iff]

/-- C3: with a valid credential, `add_documents` is atomic — either every
document of the batch validates and the whole batch is appended to the case's
collection in one step (and the case store is untouched), or the call fails
with InvalidInput or NotFound and the store is exactly as before; no partial
attach exists. -/
theorem C3_attach_atomic (apiKey caseId : String) (payload : AttachPayload)
    (auth : Option String) (s : St)
    (hauth : check_auth apiKey auth = none) :
    (∃ docs : List DocumentInput,
        validate_documents (payload.documents.getD []) = .ok docs ∧
        add_documents apiKey caseId payload auth s =
          (.ok (attachMessage docs.length caseId),
           { s with docs := (dictInsert s.docs caseId
               (((dictGet s.docs caseId).getD []) ++ docs)) })) ∨
    (((add_documents apiKey caseId payload auth s).1 = .error .invalidInput ∨
      (add_documents apiKey caseId payload auth s).1 = .error .notFound) ∧
      (add_documents apiKey caseId payload auth s).2 = s) := by
  unfold add_documents
  rw [hauth]
  by_cases hc : (dictGet s.cases caseId).isSome
  · simp only [hc, if_true]
    cases hv : validate_documents (payload.documents.getD []) with
    | error e =>
      right
      have he := validate_documents_error _ e hv
      subst he
      exact ⟨Or.inl rfl, rfl⟩
    | ok docs => exact Or.inl ⟨docs, rfl, rfl⟩
  · right
    simp only [Bool.not_eq_true] at hc
    simp [hc]

/-- Witness for C3 at concrete inputs (a batch with an unknown type is
rejected whole). -/
theorem C3_attach_atomic_witness :
    (∃ docs : List DocumentInput,
        validate_documents (((some [({ type := "ro", content := "x" } : RawDocument)] :
            Option (List RawDocument))).getD []) = .ok docs ∧
        add_documents "changeme" "caso_1"
            { documents := some [{ type := "ro", content := "x" }] }
            (some "Bearer changeme") emptySt =
          (.ok (attachMessage docs.length "caso_1"),
           { emptySt with docs := (dictInsert emptySt.docs "caso_1"
               (((dictGet emptySt.docs "caso_1").getD []) ++ docs)) })) ∨
    (((add_documents "changeme" "caso_1"
          { documents := some [{ type := "ro", content := "x" }] }
          (some "Bearer changeme") emptySt).1 = .error .invalidInput ∨
      (add_documents "changeme" "caso_1"
          { documents := some [{ type := "ro", content := "x" }] }
          (some "Bearer changeme") emptySt).1 = .error .notFound) ∧
      (add_documents "changeme" "caso_1"
          { documents := some [{ type := "ro", content := "x" }] }
          (some "Bearer changeme") emptySt).2 = emptySt) :=
  C3_attach_atomic "changeme" "caso_1"
    { documents := some [{ type := "ro", content := "x" }] }
    (some "Bearer changeme") emptySt (by decide)

/-- C7: a document is accepted exactly when its type lies in the closed
13-value set (spec names: initial_petition, defense, judgment,
clarification_motion, ordinary_appeal, panel_decision, special_appeal,
special_appeal_interlocutory, interlocutory_appeal,
clarification_motion_superior, extraordinary_appeal, appeal, other — rendered
by the source as the Portuguese literals below) and its encoding (defaulted to
`plain` when absent) lies in the closed set enum[plain|base64]; every rejection
is an InvalidInput. -/
theorem C7_document_enum (d : RawDocument) :
    ((∃ v : DocumentInput, validate_document d = .ok v) ↔
      (d.type ∈ ["peticao_inicial", "contestacao", "sentenca", "ed", "ro", "acordao",
         "rr", "airr", "ai", "edtst", "rext", "ap", "outro"] ∧
       d.encoding.getD "plain" ∈ ["plain", "base64"])) ∧
    (∀ e, validate_document d = .error e → e = .invalidInput) := by
  constructor
  · rw [show (["peticao_inicial", "contestacao", "sentenca", "ed", "ro", "acordao",
        "rr", "airr", "ai", "edtst", "rext", "ap", "outro"] : List String)
        = document_type_values from rfl,
      show (["plain", "base64"] : List String) = encoding_values from rfl]
    constructor
    · intro hex
      obtain ⟨v, hv⟩ := hex
      unfold validate_document at hv
      split at hv
      · split at hv
        · rename_i ha hb
          exact ⟨(matchesAlternation_iff _ _).mp ha, (matchesAlternation_iff _ _).mp hb⟩
        · exact absurd hv (by simp)
      · exact absurd hv (by simp)
    · rintro ⟨hm1, hm2⟩
      refine ⟨{ type := d.type, filename := d.filename, content := d.content,
                encoding := d.encoding.getD "plain" }, ?_⟩
      unfold validate_document
      rw [if_pos ((matchesAlternation_iff _ _).mpr hm1),
        if_pos ((matchesAlternation_iff _ _).mpr hm2)]
  · exact fun e h => validate_document_error d e h

/-- Witness for C7 at concrete inputs. -/
theorem C7_document_enum_witness :
    (∃ v : DocumentInput,
        validate_document { type := "sentenca", content := "x" } = .ok v) ∧
    validate_document { type := "sentence", content := "x" } = .error .invalidInput := by
  obtain ⟨hiff, _⟩ := C7_document_enum { type := "sentenca", content := "x" }
  exact ⟨hiff.mpr (by decide), by decide⟩

/-- C8: with a valid credential and an existing case, attaching the validated
batch [d1, d2] and then the batch [d3] appends in order — the collection ends
as the old list followed by [d1, d2, d3] — and each call reports the count of
documents attached in that call. -/
theorem C8_attach_order (apiKey caseId : String) (auth : Option String) (s : St)
    (r1 r2 r3 : RawDocument) (d1 d2 d3 : DocumentInput)
    (hauth : check_auth apiKey auth = none)
    (hcase : (dictGet s.cases caseId).isSome = true)
    (h1 : validate_document r1 = .ok d1) (h2 : validate_document r2 = .ok d2)
    (h3 : validate_document r3 = .ok d3) :
    ∃ s1 s2 : St,
      add_documents apiKey caseId { documents := some [r1, r2] } auth s
        = (.ok (attachMessage 2 caseId), s1) ∧
      add_documents apiKey caseId { documents := some [r3] } auth s1
        = (.ok (attachMessage 1 caseId), s2) ∧
      s1.cases = s.cases ∧ s2.cases = s.cases ∧
      dictGet s2.docs caseId
        = some (((dictGet s.docs caseId).getD []) ++ [d1, d2, d3]) := by
  have hv12 : validate_documents [r1, r2] = .ok [d1, d2] := by
    simp [validate_documents, h1, h2]
  have hv3 : validate_documents [r3] = .ok [d3] := by
    simp [validate_documents, h3]
  refine ⟨{ s with docs := (dictInsert s.docs caseId
      (((dictGet s.docs caseId).getD []) ++ [d1, d2])) },
    { s with docs := (dictInsert
        (dictInsert s.docs caseId (((dictGet s.docs caseId).getD []) ++ [d1, d2]))
        caseId ((((dictGet s.docs caseId).getD []) ++ [d1, d2]) ++ [d3])) },
    ?_, ?_, rfl, rfl, ?_⟩
  · unfold add_documents
    rw [hauth]
    simp [hcase, hv12, attachMessage]
  · unfold add_documents
    rw [hauth]
    simp [hcase, hv3, attachMessage, dictGet_insert_self]
  · rw [dictGet_insert_self]
    simp [List.append_assoc]

/-- Witness for C8 at concrete inputs (a freshly created case). -/
theorem C8_attach_order_witness :
    ∃ s1 s2 : St,
      add_documents "changeme" "caso_1"
          { documents := some [{ type := "peticao_inicial", content := "a" },
                               { type := "sentenca", content := "b" }] }
          (some "Bearer changeme")
          (create_case "changeme" { title := some "T" } (some "Bearer changeme") emptySt).2
        = (.ok (attachMessage 2 "caso_1"), s1) ∧
      add_documents "changeme" "caso_1"
          { documents := some [{ type := "ro", content := "c" }] }
          (some "Bearer changeme") s1
        = (.ok (attachMessage 1 "caso_1"), s2) ∧
      s1.cases = (create_case "changeme" { title := some "T" }
          (some "Bearer changeme") emptySt).2.cases ∧
      s2.cases = (create_case "changeme" { title := some "T" }
          (some "Bearer changeme") emptySt).2.cases ∧
      dictGet s2.docs "caso_1"
        = some (((dictGet (create_case "changeme" { title := some "T" }
              (some "Bearer changeme") emptySt).2.docs "caso_1").getD [])
            ++ [{ type := "peticao_inicial", content := "a", encoding := "plain" },
                { type := "sentenca", content := "b", encoding := "plain" },
                { type := "ro", content := "c", encoding := "plain" }]) :=
  C8_attach_order "changeme" "caso_1" (some "Bearer changeme")
    (create_case "changeme" { title := some "T" } (some "Bearer changeme") emptySt).2
    { type := "peticao_inicial", content := "a" } { type := "sentenca", content := "b" }
    { type := "ro", content := "c" }
    { type := "peticao_inicial", content := "a", encoding := "plain" }
    { type := "sentenca", content := "b", encoding := "plain" }
    { type := "ro", content := "c", encoding := "plain" }
    (by decide) (by decide) (by decide) (by decide) (by decide)

/-- C9 (implicit): `create_case` never reads the payload's `matter` key, and
every successfully created (and stored) case carries the fixed default matter
`Direito do Trabalho`. -/
theorem C9_matter_defaulted (apiKey : String) (payload : CreatePayload)
    (auth : Option String) (s : St) :
    (∀ m : Option String,
        create_case apiKey { payload with matter := m } auth s
          = create_case apiKey payload auth s) ∧
    (∀ (c : Case) (s' : St), create_case apiKey payload auth s = (.ok c, s') →
        c.matter = some "Direito do Trabalho" ∧ dictGet s'.cases c.id = some c) := by
  constructor
  · intro m; rfl
  · intro c s' h
    unfold create_case at h
    cases hca : check_auth apiKey auth with
    | some e => rw [hca] at h; simp at h
    | none =>
      rw [hca] at h
      cases ht : payload.title with
      | none => rw [ht] at h; simp at h
      | some t =>
        rw [ht] at h
        dsimp only at h
        by_cases ht0 : t = ""
        · rw [if_pos ht0] at h; simp at h
        · rw [if_neg ht0] at h
          injection h with hfst hsnd
          injection hfst with hc
          subst hc
          subst hsnd
          exact ⟨rfl, dictGet_insert_self _ _ _⟩

/-- Witness for C9 at concrete inputs (a caller-supplied matter is ignored). -/
theorem C9_matter_defaulted_witness :
    create_case "changeme" { title := some "T", matter := some "Direito Penal" }
        (some "Bearer changeme") emptySt
      = create_case "changeme" { title := some "T" } (some "Bearer changeme") emptySt ∧
    ∃ c : Case,
      (create_case "changeme" { title := some "T", matter := some "Direito Penal" }
          (some "Bearer changeme") emptySt).1 = .ok c ∧
      c.matter = some "Direito do Trabalho" := by
  obtain ⟨hig, hok⟩ := C9_matter_defaulted "changeme"
    { title := some "T", matter := some "Direito Penal" } (some "Bearer changeme") emptySt
  refine ⟨(hig none).symm, ⟨{ id := "caso_1", title := "T" }, by decide, ?_⟩⟩
  exact (hok { id := "caso_1", title := "T" }
    { cases := [("caso_1", { id := "caso_1", title := "T" })], docs := [("caso_1", [])] }
    (by decide)).1

/-- C10 (implicit): for any two analyze requests with valid credentials against
stores containing the case, the output text and the citation list are the same
constants, independent of the requested sections, the includeCitations flag and
the attached documents; citations are always present and non-empty; only the
echoed caseId and format vary with the request. -/
theorem C10_analysis_constant (apiKey : String) (auth1 auth2 : Option String)
    (cid : String) (s1 s2 : St) (req1 req2 : AnalysisRequest)
    (hauth1 : check_auth apiKey auth1 = none) (hauth2 : check_auth apiKey auth2 = none)
    (hc1 : (dictGet s1.cases cid).isSome = true)
    (hc2 : (dictGet s2.cases cid).isSome = true) :
    ∃ r1 r2 : AnalysisResponse,
      analyze_case apiKey cid req1 auth1 s1 = (.ok r1, s1) ∧
      analyze_case apiKey cid req2 auth2 s2 = (.ok r2, s2) ∧
      r1.output = r2.output ∧ r1.citations = r2.citations ∧
      r1.citations = some analysis_citations ∧ analysis_citations ≠ [] ∧
      r1.caseId = cid ∧ r2.caseId = cid ∧
      r1.format = req1.format ∧ r2.format = req2.format := by
  refine ⟨{ caseId := cid, format := req1.format, output := analysis_markdown,
            citations := some analysis_citations },
          { caseId := cid, format := req2.format, output := analysis_markdown,
            citations := some analysis_citations },
          ?_, ?_, rfl, rfl, rfl, by simp [analysis_citations], rfl, rfl, rfl, rfl⟩
  · unfold analyze_case; rw [hauth1]; simp [hc1]
  · unfold analyze_case; rw [hauth2]; simp [hc2]

/-- Witness for C10 at concrete inputs: default request versus a request with
format json, citations disabled and no sections, against the same case. -/
theorem C10_analysis_constant_witness :
    ∃ r1 r2 : AnalysisResponse,
      analyze_case "changeme" "caso_1" {} (some "Bearer changeme")
          (create_case "changeme" { title := some "T" } (some "Bearer changeme") emptySt).2
        = (.ok r1,
           (create_case "changeme" { title := some "T" } (some "Bearer changeme") emptySt).2) ∧
      analyze_case "changeme" "caso_1"
          { format := "json", includeCitations := false, sections := [] }
          (some "Bearer changeme")
          (create_case "changeme" { title := some "T" } (some "Bearer changeme") emptySt).2
        = (.ok r2,
           (create_case "changeme" { title := some "T" } (some "Bearer changeme") emptySt).2) ∧
      r1.output = r2.output ∧ r1.citations = r2.citations ∧
      r1.citations = some analysis_citations ∧ analysis_citations ≠ [] ∧
      r1.caseId = "caso_1" ∧ r2.caseId = "caso_1" ∧
      r1.format = ({} : AnalysisRequest).format ∧
      r2.format = ({ format := "json", includeCitations := false,
                     sections := [] } : AnalysisRequest).format :=
  C10_analysis_constant "changeme" (some "Bearer changeme") (some "Bearer changeme")
    "caso_1"
    (create_case "changeme" { title := some "T" } (some "Bearer changeme") emptySt).2
    (create_case "changeme" { title := some "T" } (some "Bearer changeme") emptySt).2
    {} { format := "json", includeCitations := false, sections := [] }
    (by decide) (by decide) (by decide) (by decide)

/-- C1 fails as stated: the limit is an unconstrained int, and for the
schema-valid request with `limit = -1` the source's Python slice
`items[: -1]` returns 1 citation, which is neither `min(limit, available) = -1`
nor bounded by the requested limit. -/
theorem C1_counterexample :
    (search_normas "changeme" { query := "equiparação", limit := some (-1) }
        (some "Bearer changeme") emptySt).1.map (fun r => r.items.length) = .ok 1 ∧
    norma_results.length = 2 ∧
    ¬ ((1 : Int) = min (-1 : Int) ((norma_results.length : Nat) : Int)) ∧
    ¬ ((1 : Int) ≤ (-1 : Int)) :=
  ⟨by decide, by decide, by decide, by decide⟩

/-- C1 amended: for every search-norms request with a valid credential and a
nonnegative limit, the handler succeeds without touching the store, the items
are the prefix of the generator's ranked list of length `min(limit, available)`,
never exceeding the limit. -/
theorem C1_search_limit_nonneg (apiKey : String) (req : NormaPesquisaRequest)
    (auth : Option String) (s : St) (n : Int)
    (hauth : check_auth apiKey auth = none) (hlim : req.limit = some n) (hn : 0 ≤ n) :
    ∃ r : SearchResponse,
      search_normas apiKey req auth s = (.ok r, s) ∧
      r.items = norma_results.take n.toNat ∧
      (r.items.length : Int) = min n (norma_results.length : Int) ∧
      (r.items.length : Int) ≤ n := by
  refine ⟨{ items := pySliceTo norma_results req.limit }, ?_, ?_, ?_, ?_⟩
  · unfold search_normas; rw [hauth]
  · simp [pySliceTo, hlim, hn]
  · show ((pySliceTo norma_results req.limit).length : Int) = _
    simp only [pySliceTo, hlim, if_pos hn, List.length_take]
    generalize norma_results.length = L
    omega
  · show ((pySliceTo norma_results req.limit).length : Int) ≤ n
    simp only [pySliceTo, hlim, if_pos hn, List.length_take]
    generalize norma_results.length = L
    omega

/-- Witness for the amended C1: `limit = 1` against the 2-element generator
list yields exactly the single higher-ranked citation. -/
theorem C1_search_limit_nonneg_witness :
    ∃ r : SearchResponse,
      search_normas "changeme" { query := "equiparação", limit := some 1 }
          (some "Bearer changeme") emptySt = (.ok r, emptySt) ∧
      r.items = norma_results.take (1 : Int).toNat ∧
      (r.items.length : Int) = min 1 (norma_results.length : Int) ∧
      (r.items.length : Int) ≤ 1 :=
  C1_search_limit_nonneg "changeme" { query := "equiparação", limit := some 1 }
    (some "Bearer changeme") emptySt 1 (by decide) rfl (by decide)

/-- C6: on every reachable store, a successful `create_case` assigns an
identifier distinct from every previously created case (the counter-based
`caso_{n+1}`, written `case_{n+1}` by the spec); concretely, the first created
case gets id `caso_1` with matter defaulted to the labor-law label, and the
second gets `caso_2`. -/
theorem C6_create_id_unique (apiKey : String) (s : St) (auth : Option String)
    (payload : CreatePayload) (t : String)
    (hreach : Reach apiKey s) (hauth : check_auth apiKey auth = none)
    (htitle : payload.title = some t) (ht : t ≠ "") :
    (∃ (c : Case) (s' : St),
        create_case apiKey payload auth s = (.ok c, s') ∧
        c.id = "caso_" ++ Nat.repr (s.cases.length + 1) ∧
        ∀ p ∈ s.cases, p.1 ≠ c.id) ∧
    (create_case "changeme" { title := some "Reclamação Trabalhista X" }
        (some "Bearer changeme") emptySt).1
      = .ok { id := "caso_1", title := "Reclamação Trabalhista X",
              matter := some "Direito do Trabalho", notes := none } ∧
    ((create_case "changeme" { title := some "Segundo Caso" } (some "Bearer changeme")
        (create_case "changeme" { title := some "Reclamação Trabalhista X" }
          (some "Bearer changeme") emptySt).2).1).map Case.id = .ok "caso_2" := by
  refine ⟨?_, by decide, by decide⟩
  have hstep : create_case apiKey payload auth s =
      (.ok { id := "caso_" ++ Nat.repr (s.cases.length + 1), title := t,
             notes := payload.notes },
       { cases := dictInsert s.cases ("caso_" ++ Nat.repr (s.cases.length + 1))
           { id := "caso_" ++ Nat.repr (s.cases.length + 1), title := t,
             notes := payload.notes },
         docs := dictInsert s.docs ("caso_" ++ Nat.repr (s.cases.length + 1)) [] }) := by
    unfold create_case
    rw [hauth, htitle]
    dsimp only
    rw [if_neg ht]
  refine ⟨_, _, hstep, rfl, ?_⟩
  intro p hp hpe
  obtain ⟨hkeys, _⟩ := reach_inv hreach
  have hmem : p.1 ∈ s.cases.map Prod.fst := List.mem_map_of_mem Prod.fst hp
  rw [hkeys] at hmem
  rw [hpe] at hmem
  exact freshId_not_mem s.cases.length hmem

/-- Witness for C6 on the empty (reachable) store. -/
theorem C6_create_id_unique_witness :
    (∃ (c : Case) (s' : St),
        create_case "changeme" { title := some "X" } (some "Bearer changeme") emptySt
          = (.ok c, s') ∧
        c.id = "caso_" ++ Nat.repr (emptySt.cases.length + 1) ∧
        ∀ p ∈ emptySt.cases, p.1 ≠ c.id) ∧
    (create_case "changeme" { title := some "Reclamação Trabalhista X" }
        (some "Bearer changeme") emptySt).1
      = .ok { id := "caso_1", title := "Reclamação Trabalhista X",
              matter := some "Direito do Trabalho", notes := none } ∧
    ((create_case "changeme" { title := some "Segundo Caso" } (some "Bearer changeme")
        (create_case "changeme" { title := some "Reclamação Trabalhista X" }
          (some "Bearer changeme") emptySt).2).1).map Case.id = .ok "caso_2" :=
  C6_create_id_unique "changeme" emptySt (some "Bearer changeme") { title := some "X" }
    "X" Reach.empty (by decide) rfl (by decide)
